import Mathlib

/-!
Shallow embedding of the `SensuHandler` class from `src/diamond/handler/sensu.py`
of the Diamond repository.

External socket behaviour is modelled by three oracle streams carried in the
handler state: outcomes of `socket.socket` creation, outcomes of
`socket.connect`, and outcomes of `socket.sendall`.  Consuming the head of
an exhausted stream yields failure.  A `false` creation outcome means the
`socket.socket` call fails: in Python it then raises `socket.error` (it
never returns `None`), an exception nothing in `_connect` catches, so the
`if self.socket is None` recovery branch of the source is dead code.
`connectEx` embeds `_connect` with this exception channel faithfully;
`connect` is the state-effect embedding of the paths on which `_connect`
returns (creation succeeded), extended over failed creation by the dead
recovery branch, and the two are proved to agree whenever creation
succeeds.  The field `connectCalls` counts invocations of `_connect`, and
`sentLog` records the payload of every `sendall` that actually reached a
socket; both exist only to state retry-count and no-transmission
properties.

Python peculiarities are embedded explicitly: `int(...)` on a non-numeric
string raises `ValueError` (modelled by `Option`), `l[o:]` slicing with a
negative or zero offset (`pySliceFrom`), `str.split()` discarding empty
fields (`pySplit`), and indexing a too-short token list raising `IndexError`
(`encodeMetric` returning `none`).
-/

namespace Sensu

/-- Python whitespace as used by `str.strip()` and `str.split()`. -/
def isSpaceChar (c : Char) : Bool :=
  c = ' ' || c = '\t' || c = '\n' || c = '\r' || c = '\x0b' || c = '\x0c'

/-- Python `str.strip()` on the character list of a string. -/
def pyStrip (cs : List Char) : List Char :=
  ((cs.dropWhile isSpaceChar).reverse.dropWhile isSpaceChar).reverse

/-- Python `int(str)`: strip surrounding whitespace, accept an optional sign
followed by at least one ASCII digit; any other string raises `ValueError`,
modelled as `none`. -/
def pyInt (s : String) : Option Int :=
  let t := pyStrip s.data
  let neg := t.headD ' ' = '-'
  let digits := if t.headD ' ' = '-' || t.headD ' ' = '+' then t.tail else t
  if !digits.isEmpty && digits.all Char.isDigit then
    let n : Nat := digits.foldl (fun acc c => acc * 10 + (c.toNat - 48)) 0
    some (if neg then -(n : Int) else (n : Int))
  else
    none

/-- Python slice `l[o:]` for an arbitrary integer offset `o`: a negative
offset counts from the end (clamped at the start of the list), a
non-negative offset drops that many elements. In particular `l[0:]` and
`l[-0:]` are the whole list. -/
def pySliceFrom (o : Int) (l : List String) : List String :=
  l.drop (if o < 0 then ((l.length : Int) + o).toNat else o.toNat)

/-- Accumulating helper for `pySplit`: walks the characters, collecting the
current token in reverse in `acc` and emitting it when whitespace or the end
of the string is reached. -/
def pySplitAux : List Char → List Char → List String
  | [], acc => if acc.isEmpty then [] else [String.mk acc.reverse]
  | c :: cs, acc =>
    if isSpaceChar c then
      if acc.isEmpty then pySplitAux cs []
      else String.mk acc.reverse :: pySplitAux cs []
    else pySplitAux cs (c :: acc)

/-- Python `str.split()` with no argument: split on runs of whitespace,
discarding empty fields. -/
def pySplit (s : String) : List String :=
  pySplitAux s.data []

/-- Python `str.lower()`. -/
def pyLower (s : String) : String :=
  String.mk (s.data.map Char.toLower)

/-- Consume the next outcome of an oracle stream; an exhausted stream
yields failure. -/
def popOutcome (l : List Bool) : Bool × List Bool :=
  (l.headD false, l.tail)

/-- The immutable attributes set by `SensuHandler.__init__` from the parsed
configuration. They are never written after construction, so the embedding
passes them separately from the mutable state. -/
structure Config where
  proto : String
  host : String
  port : Int
  timeout : Int
  keepalive : Bool
  keepaliveinterval : Int
  batch_size : Int
  max_backlog_multiplier : Int
  trim_backlog_multiplier : Int
  deriving Repr, DecidableEq

/-- The mutable state of a `SensuHandler`: the socket attribute (`none`
mirrors `self.socket is None`), the `self.metrics` backlog, the three
oracle streams for the socket library, and the two instrumentation fields. -/
structure SensuState where
  socket : Option Unit
  metrics : List String
  creates : List Bool
  connects : List Bool
  sends : List Bool
  connectCalls : Nat
  sentLog : List String
  deriving Repr, DecidableEq

/-- The raw configuration dictionary as `__init__` reads it: the numeric
fields are strings still to be parsed by `int(...)`. -/
structure RawConfig where
  host : String
  port : String
  proto : String
  timeout : String
  keepalive : Bool
  keepaliveinterval : String
  batch : String
  max_backlog_multiplier : String
  trim_backlog_multiplier : String
  deriving Repr, DecidableEq

/-- The two exceptions that can escape `SensuHandler.process`. -/
inductive PyErr where
  | indexError
  | sendError
  deriving Repr, DecidableEq

/-- Embeds `SensuHandler._close`: close the socket if present and set the
attribute to `None`; idempotent. -/
def close (s : SensuState) : SensuState :=
  { s with socket := none }

/-- State-effect embedding of `SensuHandler._connect`, without the
socket-creation exception channel (see `connectEx` for the faithful
embedding of that channel). On a successful creation it follows the source:
`setsockopt`/`settimeout` have no modelled state effect, and the one
operation the source wraps in `try/except` is `socket.connect`, whose
failure is absorbed (logged, then `_close`). On a failed creation it takes
the source's `if self.socket is None` recovery branch (log, `_close`,
return) — a branch that is dead in Python because `socket.socket` raises
rather than returning `None`; `connectEx` models that raise. -/
def connect (s : SensuState) : SensuState :=
  let c := popOutcome s.creates
  let s1 := { s with creates := c.2, connectCalls := s.connectCalls + 1 }
  if c.1 then
    let s2 := { s1 with socket := some () }
    let k := popOutcome s2.connects
    let s3 := { s2 with connects := k.2 }
    if k.1 then s3 else close s3
  else
    close { s1 with socket := none }

/-- Faithful embedding of `SensuHandler._connect` including the
socket-creation error channel: in Python, `socket.socket(...)` raises
`socket.error` on failure and never returns `None`, and nothing in
`_connect` catches that exception, so a creation failure propagates to the
caller — the assignment to `self.socket` never happens, the recovery branch
behind `if self.socket is None` is dead, and no log or state transition
occurs. Returns `(state, raised)` with `raised` true exactly when socket
creation fails; when creation succeeds the function cannot raise and its
state effect coincides with `connect` (the `try/except` around
`socket.connect` absorbs a connect-phase failure). -/
def connectEx (s : SensuState) : SensuState × Bool :=
  let c := popOutcome s.creates
  let s1 := { s with creates := c.2, connectCalls := s.connectCalls + 1 }
  if c.1 then
    let s2 := { s1 with socket := some () }
    let k := popOutcome s2.connects
    let s3 := { s2 with connects := k.2 }
    (if k.1 then s3 else close s3, false)
  else
    (s1, true)

/-- One `self.socket.sendall(data)` call. On a `None` socket this is an
`AttributeError` before any transmission is attempted; otherwise the next
send outcome is consumed and the payload is recorded in `sentLog`.
Returns `(raised, state)`. -/
def sendall (d : String) (s : SensuState) : Bool × SensuState :=
  match s.socket with
  | none => (true, s)
  | some _ =>
    let p := popOutcome s.sends
    (!p.1, { s with sends := p.2, sentLog := s.sentLog ++ [d] })

/-- Embeds `SensuHandler._send_data`: try `sendall`; on any exception,
`_close`, log, `_connect`, and `sendall` the same payload once more. An
exception from this second `sendall` (including the `AttributeError` hit
when the reconnect failed and the socket is `None`) propagates.
Returns `(state, raised)`. -/
def send_data (d : String) (s : SensuState) : SensuState × Bool :=
  let p := sendall d s
  if p.1 then
    let s2 := connect (close p.2)
    let q := sendall d s2
    (q.2, q.1)
  else
    (p.2, false)

/-- Embeds the `finally` block of `SensuHandler._send`: if the backlog
length has reached `batch_size * max_backlog_multiplier`, replace it by the
Python slice `self.metrics[trim_offset:]` with
`trim_offset = batch_size * trim_backlog_multiplier * -1`. -/
def trim (cfg : Config) (s : SensuState) : SensuState :=
  if cfg.batch_size * cfg.max_backlog_multiplier ≤ (s.metrics.length : Int) then
    { s with metrics :=
        pySliceFrom (cfg.batch_size * cfg.trim_backlog_multiplier * (-1)) s.metrics }
  else
    s

/-- Embeds the `try/except` body of `SensuHandler._send` (everything but the
`finally` block): reconnect when the socket is `None`; if it is still `None`
log and fall through; otherwise `_send_data` the joined backlog and clear
`self.metrics` on success; on an exception `_close`, log, and re-raise.
Returns `(state, raised)`. -/
def sendTry (s : SensuState) : SensuState × Bool :=
  let sA := if s.socket = none then connect s else s
  if sA.socket = none then
    (sA, false)
  else
    let p := send_data (String.join sA.metrics) sA
    if p.2 then (close p.1, true) else ({ p.1 with metrics := [] }, false)

/-- Embeds `SensuHandler._send`: the `try/except` body followed
unconditionally (Python `finally`) by the backlog trim, whether the body
returned normally or raised. -/
def send (cfg : Config) (s : SensuState) : SensuState × Bool :=
  (trim cfg (sendTry s).1, (sendTry s).2)

/-- Embeds `SensuHandler.flush`: it just calls `self._send()`. -/
def flush (cfg : Config) (s : SensuState) : SensuState × Bool :=
  send cfg s

/-- Embeds the encoding step of `SensuHandler.process`:
`things = str(metric).split()` followed by
`json.dumps({'output': things[1], 'issued': things[2], 'name': things[0]}) + "\n"`.
Fewer than three tokens raise `IndexError`, modelled as `none`. The order
of the serialized fields follows the source literal (Python dict iteration
order is unspecified); no claim depends on it. -/
def encodeMetric (metric : String) : Option String :=
  match pySplit metric with
  | t0 :: t1 :: t2 :: _ =>
    some ("\x7b\"output\": \"" ++ t1 ++ "\", \"issued\": \"" ++ t2 ++
      "\", \"name\": \"" ++ t0 ++ "\"\x7d\n")
  | _ => none

/-- Embeds `SensuHandler.process`: encode the metric (possibly raising
`IndexError` before anything is appended), append the encoded line to
`self.metrics`, and call `self._send()` when the backlog length has reached
`self.batch_size`; an exception from `_send` propagates. -/
def process (cfg : Config) (metric : String) (s : SensuState) :
    SensuState × Option PyErr :=
  match encodeMetric metric with
  | none => (s, some PyErr.indexError)
  | some entry =>
    let s1 := { s with metrics := s.metrics ++ [entry] }
    if cfg.batch_size ≤ (s1.metrics.length : Int) then
      let p := send cfg s1
      (p.1, if p.2 then some PyErr.sendError else none)
    else
      (s1, none)

/-- Run `process` over a list of metrics in order, stopping at the first
uncaught exception. -/
def processAll (cfg : Config) (ms : List String) (s : SensuState) :
    SensuState × Option PyErr :=
  match ms with
  | [] => (s, none)
  | m :: rest =>
    let p := process cfg m s
    match p.2 with
    | none => processAll cfg rest p.1
    | some e => (p.1, some e)

/-- Embeds `SensuHandler.__init__`: parse the configured options (each
`int(...)` may raise `ValueError`, modelled as `none`; `proto` is
lower-cased and stripped), start with `self.socket = None` and
`self.metrics = []`, and only then call `self._connect()` — so a
construction that fails on a non-numeric field performs no socket activity.
No validation relates the two multipliers or bounds the batch size. -/
def init (raw : RawConfig) (creates connects sends : List Bool) :
    Option (Config × SensuState) :=
  match pyInt raw.port with
  | none => none
  | some port =>
  match pyInt raw.timeout with
  | none => none
  | some timeout =>
  match pyInt raw.keepaliveinterval with
  | none => none
  | some kai =>
  match pyInt raw.batch with
  | none => none
  | some batch =>
  match pyInt raw.max_backlog_multiplier with
  | none => none
  | some maxm =>
  match pyInt raw.trim_backlog_multiplier with
  | none => none
  | some trimm =>
    let cfg : Config :=
      { proto := String.mk (pyStrip (pyLower raw.proto).data)
        host := raw.host
        port := port
        timeout := timeout
        keepalive := raw.keepalive
        keepaliveinterval := kai
        batch_size := batch
        max_backlog_multiplier := maxm
        trim_backlog_multiplier := trimm }
    let st0 : SensuState :=
      { socket := none, metrics := [], creates := creates,
        connects := connects, sends := sends, connectCalls := 0, sentLog := [] }
    some (cfg, connect st0)

/-!  Concrete fixtures used by witness and counterexample theorems. -/

/-- A concrete configuration: batch 1, max multiplier 2, trim multiplier 1. -/
def cfgW : Config :=
  { proto := "tcp", host := "localhost", port := 2003, timeout := 15,
    keepalive := false, keepaliveinterval := 10, batch_size := 1,
    max_backlog_multiplier := 2, trim_backlog_multiplier := 1 }

/-- A concrete configuration: batch 2, max multiplier 5, trim multiplier 4
(the handler defaults). -/
def cfgW2 : Config :=
  { cfgW with
      batch_size := 2, max_backlog_multiplier := 5,
      trim_backlog_multiplier := 4 }

/-- A connected handler state with an empty backlog. -/
def stEmpty : SensuState :=
  { socket := some (), metrics := [], creates := [], connects := [],
    sends := [], connectCalls := 0, sentLog := [] }

/-- Connected, three queued entries, transmission always failing, one
successful reconnect available. -/
def stThree : SensuState :=
  { stEmpty with
      metrics := ["a\n", "b\n", "c\n"], sends := [false, false],
      creates := [true], connects := [true] }

/-- Connected, one queued entry, transmission always failing, one successful
reconnect available. -/
def stRetry : SensuState :=
  { stEmpty with
      metrics := ["p\n"], sends := [false, false],
      creates := [true], connects := [true] }

/-- Connected, one queued entry, transmission succeeding. -/
def stOne : SensuState :=
  { stEmpty with metrics := ["x\n"], sends := [true] }

/-- Disconnected, two queued entries, socket creation succeeding but the
connect call failing (a genuinely absorbed connect-phase failure). -/
def stNoConn : SensuState :=
  { stEmpty with
      socket := none, metrics := ["a\n", "b\n"],
      creates := [true], connects := [false] }

/-- Disconnected, one queued entry, socket creation succeeding but the
connect call failing (a genuinely absorbed connect-phase failure). -/
def stNoConn1 : SensuState :=
  { stEmpty with
      socket := none, metrics := ["a\n"],
      creates := [true], connects := [false] }

/-- Disconnected state whose next socket creation fails — in Python,
`socket.socket` then raises `socket.error` (for example under process
file-descriptor exhaustion). -/
def stCreateFail : SensuState :=
  { stEmpty with socket := none, creates := [false] }

/-- A raw configuration whose multipliers violate
`trimBacklogMultiplier < maxBacklogMultiplier` but parse as integers. -/
def rawBad : RawConfig :=
  { host := "localhost", port := "2003", proto := "tcp", timeout := "15",
    keepalive := false, keepaliveinterval := "10", batch := "1",
    max_backlog_multiplier := "5", trim_backlog_multiplier := "5" }

/-- A raw configuration with a non-numeric port. -/
def rawNonNumeric : RawConfig :=
  { rawBad with port := "20x3", trim_backlog_multiplier := "4" }

/-!  Helper lemmas shared by the claim theorems. -/

lemma one_le_mul_trim (cfg : Config) (hB : 1 ≤ cfg.batch_size)
    (hT : 1 ≤ cfg.trim_backlog_multiplier) :
    1 ≤ cfg.batch_size * cfg.trim_backlog_multiplier := by
  have h := mul_le_mul hB hT zero_le_one (le_trans zero_le_one hB)
  simpa using h

lemma mul_trim_lt_mul_max (cfg : Config) (hB : 1 ≤ cfg.batch_size)
    (hTM : cfg.trim_backlog_multiplier < cfg.max_backlog_multiplier) :
    cfg.batch_size * cfg.trim_backlog_multiplier <
      cfg.batch_size * cfg.max_backlog_multiplier :=
  mul_lt_mul_of_pos_left hTM (by omega)

lemma trim_metrics (cfg : Config) (s : SensuState) :
    (trim cfg s).metrics =
      if cfg.batch_size * cfg.max_backlog_multiplier ≤ (s.metrics.length : Int) then
        pySliceFrom (cfg.batch_size * cfg.trim_backlog_multiplier * (-1)) s.metrics
      else s.metrics := by
  unfold trim; split <;> rfl

lemma trim_socket (cfg : Config) (s : SensuState) :
    (trim cfg s).socket = s.socket := by
  unfold trim; split <;> rfl

lemma trim_sentLog (cfg : Config) (s : SensuState) :
    (trim cfg s).sentLog = s.sentLog := by
  unfold trim; split <;> rfl

lemma trim_sends (cfg : Config) (s : SensuState) :
    (trim cfg s).sends = s.sends := by
  unfold trim; split <;> rfl

lemma trim_connectCalls (cfg : Config) (s : SensuState) :
    (trim cfg s).connectCalls = s.connectCalls := by
  unfold trim; split <;> rfl

lemma trim_metrics_congr (cfg : Config) (s t : SensuState)
    (h : s.metrics = t.metrics) :
    (trim cfg s).metrics = (trim cfg t).metrics := by
  rw [trim_metrics, trim_metrics, h]

lemma trimSlice_spec (cfg : Config) (l : List String)
    (hB : 1 ≤ cfg.batch_size) (hT : 1 ≤ cfg.trim_backlog_multiplier)
    (hTM : cfg.trim_backlog_multiplier < cfg.max_backlog_multiplier)
    (hlen : cfg.batch_size * cfg.max_backlog_multiplier ≤ (l.length : Int)) :
    pySliceFrom (cfg.batch_size * cfg.trim_backlog_multiplier * (-1)) l =
      l.drop (l.length - (cfg.batch_size * cfg.trim_backlog_multiplier).toNat) ∧
    ((pySliceFrom (cfg.batch_size * cfg.trim_backlog_multiplier * (-1)) l).length : Int)
      = cfg.batch_size * cfg.trim_backlog_multiplier := by
  have hk1 := one_le_mul_trim cfg hB hT
  have hkm := mul_trim_lt_mul_max cfg hB hTM
  generalize hg1 : cfg.batch_size * cfg.trim_backlog_multiplier = k at hk1 hkm ⊢
  generalize hg2 : cfg.batch_size * cfg.max_backlog_multiplier = m at hkm hlen
  unfold pySliceFrom
  have ho : k * (-1) < 0 := by omega
  rw [if_pos ho]
  have hidx : ((l.length : Int) + k * (-1)).toNat = l.length - k.toNat := by omega
  rw [hidx]
  refine ⟨rfl, ?_⟩
  rw [List.length_drop]
  omega

lemma trim_length_le (cfg : Config) (s : SensuState)
    (hB : 1 ≤ cfg.batch_size) (hT : 1 ≤ cfg.trim_backlog_multiplier)
    (hTM : cfg.trim_backlog_multiplier < cfg.max_backlog_multiplier) :
    ((trim cfg s).metrics.length : Int) ≤
      cfg.batch_size * cfg.max_backlog_multiplier := by
  rw [trim_metrics]
  split
  · rw [(trimSlice_spec cfg s.metrics hB hT hTM (by assumption)).2]
    exact le_of_lt (mul_trim_lt_mul_max cfg hB hTM)
  · exact le_of_lt (lt_of_not_le (by assumption))

lemma trim_length_eq (cfg : Config) (s : SensuState)
    (hB : 1 ≤ cfg.batch_size) (hT : 1 ≤ cfg.trim_backlog_multiplier)
    (hTM : cfg.trim_backlog_multiplier < cfg.max_backlog_multiplier)
    (hlen : cfg.batch_size * cfg.max_backlog_multiplier ≤ (s.metrics.length : Int)) :
    ((trim cfg s).metrics.length : Int) =
      cfg.batch_size * cfg.trim_backlog_multiplier := by
  rw [trim_metrics, if_pos hlen]
  exact (trimSlice_spec cfg s.metrics hB hT hTM hlen).2

lemma trim_metrics_nil (cfg : Config) (s : SensuState) (h : s.metrics = []) :
    (trim cfg s).metrics = [] := by
  rw [trim_metrics, h]
  split <;> simp [pySliceFrom]

lemma trim_metrics_ne_nil (cfg : Config) (s : SensuState)
    (hB : 1 ≤ cfg.batch_size) (hT : 1 ≤ cfg.trim_backlog_multiplier)
    (h : s.metrics ≠ []) : (trim cfg s).metrics ≠ [] := by
  rw [trim_metrics]
  split
  · have hk1 := one_le_mul_trim cfg hB hT
    have hl : 0 < s.metrics.length := List.length_pos.mpr h
    generalize hg1 : cfg.batch_size * cfg.trim_backlog_multiplier = k at hk1 ⊢
    intro hnil
    have hlen := congrArg List.length hnil
    rw [pySliceFrom] at hlen
    rw [List.length_drop] at hlen
    simp only [List.length_nil] at hlen
    have ho : k * (-1) < 0 := by omega
    rw [if_pos ho] at hlen
    omega
  · exact h

lemma connect_spec (s : SensuState) :
    connect s =
      if s.creates.headD false then
        if s.connects.headD false then
          { s with
              socket := some (), creates := s.creates.tail,
              connects := s.connects.tail, connectCalls := s.connectCalls + 1 }
        else
          { s with
              socket := none, creates := s.creates.tail,
              connects := s.connects.tail, connectCalls := s.connectCalls + 1 }
      else
        { s with
            socket := none, creates := s.creates.tail,
            connectCalls := s.connectCalls + 1 } := by
  unfold connect close popOutcome
  dsimp only

lemma connect_metrics (s : SensuState) : (connect s).metrics = s.metrics := by
  rw [connect_spec]; split <;> first | (split <;> rfl) | rfl

lemma connect_sentLog (s : SensuState) : (connect s).sentLog = s.sentLog := by
  rw [connect_spec]; split <;> first | (split <;> rfl) | rfl

lemma connect_sends (s : SensuState) : (connect s).sends = s.sends := by
  rw [connect_spec]; split <;> first | (split <;> rfl) | rfl

lemma connect_connectCalls (s : SensuState) :
    (connect s).connectCalls = s.connectCalls + 1 := by
  rw [connect_spec]; split <;> first | (split <;> rfl) | rfl

lemma connect_socket (s : SensuState) :
    (connect s).socket =
      if s.creates.headD false && s.connects.headD false then some () else none := by
  rw [connect_spec]
  by_cases h1 : s.creates.headD false = true
  · rw [if_pos h1]
    by_cases h2 : s.connects.headD false = true
    · rw [if_pos h2]
      simp only [List.headD_eq_head?_getD] at h1 h2
      simp [h1, h2]
    · rw [if_neg h2]
      rw [Bool.not_eq_true] at h2
      simp only [List.headD_eq_head?_getD] at h1 h2
      simp [h1, h2]
  · rw [if_neg h1]
    rw [Bool.not_eq_true] at h1
    simp only [List.headD_eq_head?_getD] at h1
    simp [h1]

lemma sendall_none (d : String) (s : SensuState) (h : s.socket = none) :
    sendall d s = (true, s) := by
  unfold sendall; rw [h]

lemma sendall_some (d : String) (s : SensuState) (h : s.socket = some ()) :
    sendall d s = (!s.sends.headD false,
      { s with
          sends := s.sends.tail, sentLog := s.sentLog ++ [d] }) := by
  unfold sendall; rw [h]; rfl

lemma sendall_metrics (d : String) (s : SensuState) :
    (sendall d s).2.metrics = s.metrics := by
  unfold sendall; cases h : s.socket <;> rfl

lemma sendall_socket (d : String) (s : SensuState) :
    (sendall d s).2.socket = s.socket := by
  unfold sendall; cases h : s.socket <;> simp [h]

lemma sendall_not_raised_socket (d : String) (s : SensuState)
    (h : (sendall d s).1 = false) : s.socket = some () := by
  unfold sendall at h
  cases hx : s.socket with
  | none => rw [hx] at h; exact absurd h (by simp)
  | some u => cases u; rfl

lemma send_data_spec (d : String) (s : SensuState) :
    send_data d s =
      if (sendall d s).1 then
        ((sendall d (connect (close (sendall d s).2))).2,
         (sendall d (connect (close (sendall d s).2))).1)
      else ((sendall d s).2, false) := rfl

lemma close_metrics (s : SensuState) : (close s).metrics = s.metrics := rfl

lemma send_data_metrics (d : String) (s : SensuState) :
    (send_data d s).1.metrics = s.metrics := by
  rw [send_data_spec]
  split
  · rw [show ((sendall d (connect (close (sendall d s).2))).2,
        (sendall d (connect (close (sendall d s).2))).1).1
        = (sendall d (connect (close (sendall d s).2))).2 from rfl]
    rw [sendall_metrics, connect_metrics, close_metrics, sendall_metrics]
  · exact sendall_metrics d s

lemma send_data_ok_socket (d : String) (s : SensuState)
    (h : (send_data d s).2 = false) : (send_data d s).1.socket = some () := by
  rw [send_data_spec] at h ⊢
  by_cases hr : (sendall d s).1 = true
  · rw [if_pos hr] at h ⊢
    rw [sendall_socket]
    exact sendall_not_raised_socket _ _ h
  · rw [if_neg hr]
    rw [sendall_socket]
    exact sendall_not_raised_socket _ _ (Bool.not_eq_true _ ▸ hr)

lemma sA_metrics (s : SensuState) :
    (if s.socket = none then connect s else s).metrics = s.metrics := by
  split
  · exact connect_metrics s
  · rfl

lemma sA_sentLog (s : SensuState) :
    (if s.socket = none then connect s else s).sentLog = s.sentLog := by
  split
  · exact connect_sentLog s
  · rfl

lemma sA_sends (s : SensuState) :
    (if s.socket = none then connect s else s).sends = s.sends := by
  split
  · exact connect_sends s
  · rfl

lemma trim_metrics_of_lt (cfg : Config) (s : SensuState)
    (h : (s.metrics.length : Int) < cfg.batch_size * cfg.max_backlog_multiplier) :
    (trim cfg s).metrics = s.metrics := by
  rw [trim_metrics, if_neg (not_le.mpr h)]

lemma flush_eq (cfg : Config) (s : SensuState) :
    flush cfg s = (trim cfg (sendTry s).1, (sendTry s).2) := rfl

lemma sendTry_spec (s sA : SensuState)
    (hA : sA = if s.socket = none then connect s else s) :
    (sA.socket = none ∧ sendTry s = (sA, false)) ∨
    (sA.socket = some () ∧
      (((send_data (String.join sA.metrics) sA).2 = true ∧
          sendTry s = (close (send_data (String.join sA.metrics) sA).1, true)) ∨
       ((send_data (String.join sA.metrics) sA).2 = false ∧
          sendTry s =
            ({ (send_data (String.join sA.metrics) sA).1 with metrics := [] },
             false)))) := by
  subst hA
  by_cases h : (if s.socket = none then connect s else s).socket = none
  · left
    refine ⟨h, ?_⟩
    unfold sendTry
    dsimp only
    rw [if_pos h]
  · right
    have hsome : (if s.socket = none then connect s else s).socket = some () := by
      cases hx : (if s.socket = none then connect s else s).socket with
      | none => exact absurd hx h
      | some u => cases u; rfl
    refine ⟨hsome, ?_⟩
    by_cases hp : (send_data
        (String.join (if s.socket = none then connect s else s).metrics)
        (if s.socket = none then connect s else s)).2 = true
    · left
      refine ⟨hp, ?_⟩
      unfold sendTry
      dsimp only
      rw [if_neg h, if_pos hp]
    · right
      refine ⟨Bool.not_eq_true _ ▸ hp, ?_⟩
      unfold sendTry
      dsimp only
      rw [if_neg h, if_neg hp]

lemma processAll_cons (cfg : Config) (m : String) (ms : List String)
    (s : SensuState) :
    processAll cfg (m :: ms) s =
      match (process cfg m s).2 with
      | none => processAll cfg ms (process cfg m s).1
      | some e => ((process cfg m s).1, some e) := rfl

lemma processAll_below_threshold (cfg : Config) (ms : List String) (s : SensuState)
    (hms : ∀ m ∈ ms, (encodeMetric m).isSome = true)
    (hlt : (s.metrics.length : Int) + ms.length < cfg.batch_size) :
    (processAll cfg ms s).1.metrics.length = s.metrics.length + ms.length ∧
    (processAll cfg ms s).1.sentLog = s.sentLog ∧
    (processAll cfg ms s).1.connectCalls = s.connectCalls ∧
    (processAll cfg ms s).1.sends = s.sends ∧
    (processAll cfg ms s).1.socket = s.socket ∧
    (processAll cfg ms s).2 = none := by
  induction ms generalizing s with
  | nil => simp [processAll]
  | cons m rest ih =>
    obtain ⟨e, he⟩ := Option.isSome_iff_exists.mp (hms m (List.mem_cons_self m rest))
    have hlen : ((s.metrics ++ [e]).length : Int) = (s.metrics.length : Int) + 1 := by
      simp
    have hltm : (s.metrics.length : Int) + ((m :: rest).length : Int) < cfg.batch_size :=
      hlt
    have hltc : (s.metrics.length : Int) + 1 + (rest.length : Int) < cfg.batch_size := by
      simp only [List.length_cons] at hltm
      push_cast at hltm
      omega
    have hni : ¬ (cfg.batch_size ≤ (((s.metrics ++ [e]).length : Nat) : Int)) := by
      rw [hlen]
      omega
    have hstep : process cfg m s = ({ s with metrics := s.metrics ++ [e] }, none) := by
      unfold process
      rw [he]
      dsimp only
      rw [if_neg hni]
    have hPA : processAll cfg (m :: rest) s =
        processAll cfg rest { s with metrics := s.metrics ++ [e] } := by
      rw [processAll_cons, hstep]
    have hrest := ih { s with metrics := s.metrics ++ [e] }
      (fun x hx => hms x (List.mem_cons_of_mem m hx))
      (by
        show ((s.metrics ++ [e]).length : Int) + (rest.length : Int) < cfg.batch_size
        rw [hlen]
        omega)
    rw [hPA]
    rcases hrest with ⟨h1, h2, h3, h4, h5, h6⟩
    refine ⟨?_, h2, h3, h4, h5, h6⟩
    rw [h1]
    show (s.metrics ++ [e]).length + rest.length = s.metrics.length + (m :: rest).length
    simp [List.length_append]
    omega

/-!  Claim theorems. -/

/-- C1: every flush performs, as its final step on every branch, the
backlog-length check against `batch_size * max_backlog_multiplier` (the
flush result is a trim of the post-branch state); after any flush returns,
normally or by exception, the backlog length is at most that bound; and
whenever the trim fires (length at least the bound) the resulting length is
exactly `batch_size * trim_backlog_multiplier`. -/
theorem flush_backlog_bounded (cfg : Config) (s : SensuState)
    (hB : 1 ≤ cfg.batch_size) (hT : 1 ≤ cfg.trim_backlog_multiplier)
    (hTM : cfg.trim_backlog_multiplier < cfg.max_backlog_multiplier) :
    ((flush cfg s).1.metrics.length : Int) ≤
      cfg.batch_size * cfg.max_backlog_multiplier ∧
    (cfg.batch_size * cfg.max_backlog_multiplier ≤ (s.metrics.length : Int) →
      ((trim cfg s).metrics.length : Int) =
        cfg.batch_size * cfg.trim_backlog_multiplier) ∧
    (∃ s1, (flush cfg s).1 = trim cfg s1) := by
  refine ⟨?_, ?_, ⟨(sendTry s).1, rfl⟩⟩
  · exact trim_length_le cfg (sendTry s).1 hB hT hTM
  · intro hlen
    exact trim_length_eq cfg s hB hT hTM hlen

/-- Witness for C1 at the concrete configuration `cfgW` and state `stThree`. -/
theorem flush_backlog_bounded_witness :
    ((1 : Int) ≤ cfgW.batch_size ∧ (1 : Int) ≤ cfgW.trim_backlog_multiplier ∧
      cfgW.trim_backlog_multiplier < cfgW.max_backlog_multiplier) ∧
    (((flush cfgW stThree).1.metrics.length : Int) ≤
      cfgW.batch_size * cfgW.max_backlog_multiplier ∧
    (cfgW.batch_size * cfgW.max_backlog_multiplier ≤ (stThree.metrics.length : Int) →
      ((trim cfgW stThree).metrics.length : Int) =
        cfgW.batch_size * cfgW.trim_backlog_multiplier) ∧
    (∃ s1, (flush cfgW stThree).1 = trim cfgW s1)) :=
  ⟨by decide, flush_backlog_bounded cfgW stThree (by decide) (by decide) (by decide)⟩

/-- C3: when a transmit of a payload fails, `_send_data` performs exactly one
reconnect (`connectCalls` grows by one) followed by exactly one retransmit of
the same payload (the attempt log grows by exactly `[d, d]`, and exactly two
send outcomes are consumed, so no further retries occur); the outcome of the
whole call is the outcome of that single retransmit, so a second failure
propagates to the caller as a raised error. -/
theorem send_data_single_retry (d : String) (s : SensuState) (b : Bool)
    (ss cs ns : List Bool)
    (hsock : s.socket = some ()) (hsends : s.sends = false :: b :: ss)
    (hcreates : s.creates = true :: cs) (hconnects : s.connects = true :: ns) :
    (send_data d s).1.sentLog = s.sentLog ++ [d, d] ∧
    (send_data d s).1.connectCalls = s.connectCalls + 1 ∧
    (send_data d s).1.sends = ss ∧
    (send_data d s).2 = !b := by
  obtain ⟨sock, met, cr, co, se, cc, sl⟩ := s
  simp only at hsock hsends hcreates hconnects
  subst hsock hsends hcreates hconnects
  simp [send_data, sendall, connect, close, popOutcome]

/-- Witness for C3 at a concrete payload and state with both transmits
failing. -/
theorem send_data_single_retry_witness :
    (stRetry.socket = some () ∧ stRetry.sends = false :: false :: [] ∧
      stRetry.creates = true :: [] ∧ stRetry.connects = true :: []) ∧
    ((send_data "p\n" stRetry).1.sentLog = stRetry.sentLog ++ ["p\n", "p\n"] ∧
     (send_data "p\n" stRetry).1.connectCalls = stRetry.connectCalls + 1 ∧
     (send_data "p\n" stRetry).1.sends = [] ∧
     (send_data "p\n" stRetry).2 = !false) :=
  ⟨by decide, send_data_single_retry "p\n" stRetry false [] [] []
    (by decide) (by decide) (by decide) (by decide)⟩

/-- C4: when the trim fires on a backlog of length `N` at least
`batch_size * max_backlog_multiplier`, with trim target
`k = batch_size * trim_backlog_multiplier`, the surviving entries are
exactly the suffix of the last `k` entries in their original order (the
original backlog is the discarded oldest prefix followed by the survivors,
and exactly `k` entries survive). -/
theorem trim_keeps_newest_suffix (cfg : Config) (s : SensuState)
    (hB : 1 ≤ cfg.batch_size) (hT : 1 ≤ cfg.trim_backlog_multiplier)
    (hTM : cfg.trim_backlog_multiplier < cfg.max_backlog_multiplier)
    (hlen : cfg.batch_size * cfg.max_backlog_multiplier ≤ (s.metrics.length : Int)) :
    (trim cfg s).metrics =
      s.metrics.drop
        (s.metrics.length - (cfg.batch_size * cfg.trim_backlog_multiplier).toNat) ∧
    s.metrics =
      s.metrics.take
        (s.metrics.length - (cfg.batch_size * cfg.trim_backlog_multiplier).toNat) ++
        (trim cfg s).metrics ∧
    ((trim cfg s).metrics.length : Int) =
      cfg.batch_size * cfg.trim_backlog_multiplier := by
  have h2 := trim_length_eq cfg s hB hT hTM hlen
  have h1 : (trim cfg s).metrics =
      s.metrics.drop
        (s.metrics.length - (cfg.batch_size * cfg.trim_backlog_multiplier).toNat) := by
    rw [trim_metrics, if_pos hlen]
    exact (trimSlice_spec cfg s.metrics hB hT hTM hlen).1
  refine ⟨h1, ?_, h2⟩
  rw [h1, List.take_append_drop]

/-- Witness for C4 at the concrete configuration `cfgW` and state `stThree`. -/
theorem trim_keeps_newest_suffix_witness :
    ((1 : Int) ≤ cfgW.batch_size ∧ (1 : Int) ≤ cfgW.trim_backlog_multiplier ∧
      cfgW.trim_backlog_multiplier < cfgW.max_backlog_multiplier ∧
      cfgW.batch_size * cfgW.max_backlog_multiplier ≤ (stThree.metrics.length : Int)) ∧
    ((trim cfgW stThree).metrics =
      stThree.metrics.drop
        (stThree.metrics.length -
          (cfgW.batch_size * cfgW.trim_backlog_multiplier).toNat) ∧
    stThree.metrics =
      stThree.metrics.take
        (stThree.metrics.length -
          (cfgW.batch_size * cfgW.trim_backlog_multiplier).toNat) ++
        (trim cfgW stThree).metrics ∧
    ((trim cfgW stThree).metrics.length : Int) =
      cfgW.batch_size * cfgW.trim_backlog_multiplier) :=
  ⟨by decide, trim_keeps_newest_suffix cfgW stThree
    (by decide) (by decide) (by decide) (by decide)⟩

/-- C5 (code bug): at the failing input `stCreateFail` — `_connect` invoked
while the `socket.socket` call fails — the faithful embedding `connectEx`
propagates the exception to the caller (`raised = true`) with no recovery:
in Python `socket.socket` raises `socket.error` rather than returning
`None`, nothing in `_connect` catches it, and the recovery branch behind
`if self.socket is None` (log "Unable to create socket", `_close`, return)
is dead code, contradicting the claim that a socket-creation failure is
logged and absorbed leaving the state Disconnected. The dead branch shows
absorption was the code's own intent, so the claim is right and the code is
the slip. On every state whose next creation succeeds — the only paths on
which `_connect` returns at all — `_connect` does not raise and its state
effect agrees with `connect`, so resolution, connect and timeout failures
are absorbed exactly as the claim says. -/
theorem connect_creation_failure_propagates (s : SensuState)
    (hcreated : s.creates.headD false = true) :
    (connectEx stCreateFail).2 = true ∧
    (connectEx stCreateFail).1.socket = none ∧
    (connectEx s).2 = false ∧
    (connectEx s).1 = connect s := by
  refine ⟨by decide, by decide, ?_, ?_⟩
  · unfold connectEx popOutcome
    dsimp only
    rw [if_pos hcreated]
  · unfold connectEx connect popOutcome
    dsimp only
    rw [if_pos hcreated, if_pos hcreated]

/-- Witness for C5 at the connected state `stRetry`, whose next socket
creation succeeds. -/
theorem connect_creation_failure_propagates_witness :
    stRetry.creates.headD false = true ∧
    ((connectEx stCreateFail).2 = true ∧
     (connectEx stCreateFail).1.socket = none ∧
     (connectEx stRetry).2 = false ∧
     (connectEx stRetry).1 = connect stRetry) :=
  ⟨by decide, connect_creation_failure_propagates stRetry (by decide)⟩

/-- C2: a flush removes backlog entries only when transmission succeeds:
whenever the flush propagates a failure (raised), the connection has been
closed and the backlog afterwards is exactly the trim of the pre-flush
backlog (every pre-flush entry survives up to the trimming policy); and for
a non-empty pre-flush backlog, the backlog is empty after the flush exactly
when the flush returned normally with the connection still open, i.e. after
`transmit` reported success. -/
theorem flush_clears_only_on_success (cfg : Config) (s : SensuState)
    (hB : 1 ≤ cfg.batch_size) (hT : 1 ≤ cfg.trim_backlog_multiplier) :
    ((flush cfg s).2 = true →
      (flush cfg s).1.socket = none ∧
      (flush cfg s).1.metrics = (trim cfg s).metrics) ∧
    (s.metrics ≠ [] →
      ((flush cfg s).1.metrics = [] ↔
        (flush cfg s).2 = false ∧ (flush cfg s).1.socket = some ())) := by
  set sA := if s.socket = none then connect s else s with hsA
  have hsAm : sA.metrics = s.metrics := sA_metrics s
  rcases sendTry_spec s sA hsA with ⟨hnone, heq⟩ | ⟨hsome, ⟨hp, heq⟩ | ⟨hp, heq⟩⟩
  · have h1 : (flush cfg s).1 = trim cfg sA := by rw [flush_eq, heq]
    have h2 : (flush cfg s).2 = false := by rw [flush_eq, heq]
    have hm : (flush cfg s).1.metrics = (trim cfg s).metrics := by
      rw [h1]
      exact trim_metrics_congr cfg sA s hsAm
    have hsk : (flush cfg s).1.socket = none := by
      rw [h1, trim_socket]
      exact hnone
    refine ⟨?_, ?_⟩
    · intro hr
      rw [h2] at hr
      cases hr
    · intro hne
      constructor
      · intro hmm
        rw [hm] at hmm
        exact absurd hmm (trim_metrics_ne_nil cfg s hB hT hne)
      · rintro ⟨-, hsock⟩
        rw [hsk] at hsock
        cases hsock
  · have h1 : (flush cfg s).1 =
        trim cfg (close (send_data (String.join sA.metrics) sA).1) := by
      rw [flush_eq, heq]
    have h2 : (flush cfg s).2 = true := by rw [flush_eq, heq]
    have hm : (flush cfg s).1.metrics = (trim cfg s).metrics := by
      rw [h1]
      refine trim_metrics_congr cfg _ s ?_
      rw [close_metrics, send_data_metrics, hsAm]
    have hsk : (flush cfg s).1.socket = none := by
      rw [h1, trim_socket]
      rfl
    refine ⟨fun _ => ⟨hsk, hm⟩, ?_⟩
    intro hne
    constructor
    · intro hmm
      rw [hm] at hmm
      exact absurd hmm (trim_metrics_ne_nil cfg s hB hT hne)
    · rintro ⟨hr, -⟩
      rw [h2] at hr
      cases hr
  · have h1 : (flush cfg s).1 =
        trim cfg { (send_data (String.join sA.metrics) sA).1 with metrics := [] } := by
      rw [flush_eq, heq]
    have h2 : (flush cfg s).2 = false := by rw [flush_eq, heq]
    have hm : (flush cfg s).1.metrics = [] := by
      rw [h1]
      exact trim_metrics_nil cfg _ rfl
    have hsk : (flush cfg s).1.socket = some () := by
      rw [h1, trim_socket]
      show (send_data (String.join sA.metrics) sA).1.socket = some ()
      exact send_data_ok_socket _ _ hp
    refine ⟨?_, ?_⟩
    · intro hr
      rw [h2] at hr
      cases hr
    · intro hne
      exact ⟨fun _ => ⟨h2, hsk⟩, fun _ => hm⟩

/-- Witness for C2 at the concrete configuration `cfgW` and the
double-failure state `stRetry`. -/
theorem flush_clears_only_on_success_witness :
    ((1 : Int) ≤ cfgW.batch_size ∧ (1 : Int) ≤ cfgW.trim_backlog_multiplier) ∧
    (((flush cfgW stRetry).2 = true →
       (flush cfgW stRetry).1.socket = none ∧
       (flush cfgW stRetry).1.metrics = (trim cfgW stRetry).metrics) ∧
     (stRetry.metrics ≠ [] →
       ((flush cfgW stRetry).1.metrics = [] ↔
         (flush cfgW stRetry).2 = false ∧
         (flush cfgW stRetry).1.socket = some ()))) :=
  ⟨by decide, flush_clears_only_on_success cfgW stRetry (by decide) (by decide)⟩

/-- C7 (amended): if a flush finds the connection Disconnected and the
connect attempt it makes also fails, the flush returns normally without
raising, no transmission is attempted (the attempt log and the send oracle
are untouched), the state stays Disconnected, and the backlog is not altered
except by the unconditional final trim: it equals the trim of the pre-flush
backlog, and in particular is unchanged whenever its length is below
`batch_size * max_backlog_multiplier`. -/
theorem flush_no_connection_frame (cfg : Config) (s : SensuState)
    (hsock : s.socket = none) (hstill : (connect s).socket = none) :
    (flush cfg s).2 = false ∧
    (flush cfg s).1.sentLog = s.sentLog ∧
    (flush cfg s).1.sends = s.sends ∧
    (flush cfg s).1.socket = none ∧
    (flush cfg s).1.metrics = (trim cfg s).metrics ∧
    ((s.metrics.length : Int) < cfg.batch_size * cfg.max_backlog_multiplier →
      (flush cfg s).1.metrics = s.metrics) := by
  have hA : connect s = if s.socket = none then connect s else s := by
    rw [if_pos hsock]
  rcases sendTry_spec s (connect s) hA with ⟨hnone, heq⟩ | ⟨hsome, -⟩
  · have h1 : (flush cfg s).1 = trim cfg (connect s) := by rw [flush_eq, heq]
    have h2 : (flush cfg s).2 = false := by rw [flush_eq, heq]
    have hm : (flush cfg s).1.metrics = (trim cfg s).metrics := by
      rw [h1]
      exact trim_metrics_congr cfg _ s (connect_metrics s)
    refine ⟨h2, ?_, ?_, ?_, hm, ?_⟩
    · rw [h1, trim_sentLog, connect_sentLog]
    · rw [h1, trim_sends, connect_sends]
    · rw [h1, trim_socket]
      exact hstill
    · intro hlt
      rw [hm, trim_metrics_of_lt cfg s hlt]
  · rw [hstill] at hsome
    cases hsome

/-- Counterexample to C7 as stated: with `cfgW` (batch 1, max multiplier 2,
trim multiplier 1) and `stNoConn` (Disconnected, reconnect failing, two
queued entries), the flush returns normally and transmits nothing, yet the
unconditional trim in the `finally` block drops the oldest entry, so an
entry present before the flush is gone afterwards. -/
theorem flush_no_connection_counterexample :
    stNoConn.socket = none ∧ (connect stNoConn).socket = none ∧
    (flush cfgW stNoConn).2 = false ∧
    (flush cfgW stNoConn).1.sentLog = [] ∧
    stNoConn.metrics = ["a\n", "b\n"] ∧
    (flush cfgW stNoConn).1.metrics = ["b\n"] := by decide

/-- Witness for the amended C7 at the concrete configuration `cfgW` and the
one-entry disconnected state `stNoConn1`. -/
theorem flush_no_connection_frame_witness :
    (stNoConn1.socket = none ∧ (connect stNoConn1).socket = none) ∧
    ((flush cfgW stNoConn1).2 = false ∧
     (flush cfgW stNoConn1).1.sentLog = stNoConn1.sentLog ∧
     (flush cfgW stNoConn1).1.sends = stNoConn1.sends ∧
     (flush cfgW stNoConn1).1.socket = none ∧
     (flush cfgW stNoConn1).1.metrics = (trim cfgW stNoConn1).metrics ∧
     ((stNoConn1.metrics.length : Int) <
        cfgW.batch_size * cfgW.max_backlog_multiplier →
       (flush cfgW stNoConn1).1.metrics = stNoConn1.metrics)) :=
  ⟨⟨by decide, by decide⟩,
    flush_no_connection_frame cfgW stNoConn1 (by decide) (by decide)⟩

/-- C9: when the flush's transmit succeeds (on the first attempt or on the
single retry inside `_send_data`), the backlog is cleared to empty, no
exception propagates, and the connection is not closed: the socket remains
in the Connected state it held when the send completed. -/
theorem flush_success_clears_backlog (cfg : Config) (s sA : SensuState)
    (hA : sA = if s.socket = none then connect s else s)
    (hconn : sA.socket = some ())
    (hok : (send_data (String.join sA.metrics) sA).2 = false) :
    (flush cfg s).1.metrics = [] ∧
    (flush cfg s).1.socket = some () ∧
    (flush cfg s).2 = false := by
  rcases sendTry_spec s sA hA with ⟨hnone, -⟩ | ⟨-, ⟨hp, -⟩ | ⟨-, heq⟩⟩
  · rw [hnone] at hconn
    cases hconn
  · rw [hok] at hp
    cases hp
  · have h1 : (flush cfg s).1 =
        trim cfg { (send_data (String.join sA.metrics) sA).1 with metrics := [] } := by
      rw [flush_eq, heq]
    have h2 : (flush cfg s).2 = false := by rw [flush_eq, heq]
    refine ⟨?_, ?_, h2⟩
    · rw [h1]
      exact trim_metrics_nil cfg _ rfl
    · rw [h1, trim_socket]
      show (send_data (String.join sA.metrics) sA).1.socket = some ()
      exact send_data_ok_socket _ _ hok

/-- Witness for C9 at the concrete configuration `cfgW` and the connected
one-entry state `stOne` whose transmit succeeds at once. -/
theorem flush_success_clears_backlog_witness :
    (stOne = (if stOne.socket = none then connect stOne else stOne) ∧
     stOne.socket = some () ∧
     (send_data (String.join stOne.metrics) stOne).2 = false) ∧
    ((flush cfgW stOne).1.metrics = [] ∧
     (flush cfgW stOne).1.socket = some () ∧
     (flush cfgW stOne).2 = false) :=
  ⟨⟨by decide, by decide, by decide⟩,
    flush_success_clears_backlog cfgW stOne stOne
      (by decide) (by decide) (by decide)⟩

/-- Counterexample to C6 as stated: the raw configuration `rawBad` violates
`trimBacklogMultiplier < maxBacklogMultiplier` (both are 5), yet
construction succeeds — `__init__` performs no validation of the multiplier
invariant, so a handler instance can exist with a violating configuration. -/
theorem init_accepts_violating_multipliers :
    (init rawBad [true] [true] []).isSome = true ∧
    ((init rawBad [true] [true] []).map
      (fun p =>
        decide (p.1.max_backlog_multiplier ≤ p.1.trim_backlog_multiplier)))
      = some true :=
  ⟨by decide, by decide⟩

/-- C6 (amended): a non-numeric numeric configuration field — in particular
a non-numeric port — makes construction fail with `ValueError` before any
socket activity (`_connect` is only reached after every `int(...)`
conversion has succeeded); the multiplier invariants themselves are not
validated at construction. -/
theorem init_fails_on_nonnumeric (raw : RawConfig)
    (creates connects sends : List Bool)
    (h : pyInt raw.port = none ∨ pyInt raw.timeout = none ∨
      pyInt raw.keepaliveinterval = none ∨ pyInt raw.batch = none ∨
      pyInt raw.max_backlog_multiplier = none ∨
      pyInt raw.trim_backlog_multiplier = none) :
    init raw creates connects sends = none := by
  unfold init
  cases hp : pyInt raw.port with
  | none => rfl
  | some vp =>
    cases ht : pyInt raw.timeout with
    | none => rfl
    | some vt =>
      cases hk : pyInt raw.keepaliveinterval with
      | none => rfl
      | some vk =>
        cases hb : pyInt raw.batch with
        | none => rfl
        | some vb =>
          cases hmx : pyInt raw.max_backlog_multiplier with
          | none => rfl
          | some vm =>
            cases htr : pyInt raw.trim_backlog_multiplier with
            | none => rfl
            | some vtr =>
              exfalso
              rcases h with h | h | h | h | h | h <;> simp_all

/-- Witness for the amended C6 at the concrete raw configuration
`rawNonNumeric`, whose port is the non-numeric string "20x3". -/
theorem init_fails_on_nonnumeric_witness :
    (pyInt rawNonNumeric.port = none ∨ pyInt rawNonNumeric.timeout = none ∨
      pyInt rawNonNumeric.keepaliveinterval = none ∨
      pyInt rawNonNumeric.batch = none ∨
      pyInt rawNonNumeric.max_backlog_multiplier = none ∨
      pyInt rawNonNumeric.trim_backlog_multiplier = none) ∧
    init rawNonNumeric [true] [true] [] = none :=
  ⟨by decide, init_fails_on_nonnumeric rawNonNumeric [true] [true] [] (by decide)⟩

/-- C8: starting from an empty backlog, a sequence of fewer than
`batch_size` well-formed `process` calls attempts no transmission (the
attempt log, connect count and send oracle are untouched) and leaves the
backlog length equal to the number of calls made; and any `process` call
that brings the backlog length up to `batch_size` triggers a flush
automatically, exactly once: its whole result is that of a single `_send`
on the state with the encoded entry appended. -/
theorem process_batches_at_threshold (cfg : Config) (ms : List String)
    (s0 : SensuState) (m : String) (s : SensuState) (entry : String)
    (h0 : s0.metrics = [])
    (hms : ∀ x ∈ ms, (encodeMetric x).isSome = true)
    (hlt : (ms.length : Int) < cfg.batch_size)
    (hm : encodeMetric m = some entry)
    (hge : cfg.batch_size ≤ (s.metrics.length : Int) + 1) :
    ((processAll cfg ms s0).1.metrics.length = ms.length ∧
     (processAll cfg ms s0).1.sentLog = s0.sentLog ∧
     (processAll cfg ms s0).1.connectCalls = s0.connectCalls ∧
     (processAll cfg ms s0).1.sends = s0.sends ∧
     (processAll cfg ms s0).2 = none) ∧
    process cfg m s =
      ((send cfg { s with metrics := s.metrics ++ [entry] }).1,
       if (send cfg { s with metrics := s.metrics ++ [entry] }).2 then
         some PyErr.sendError
       else none) := by
  constructor
  · have h := processAll_below_threshold cfg ms s0 hms
      (by rw [h0]; simpa using hlt)
    rcases h with ⟨h1, h2, h3, h4, -, h6⟩
    refine ⟨?_, h2, h3, h4, h6⟩
    rw [h1, h0]
    simp
  · have hcond : cfg.batch_size ≤ (((s.metrics ++ [entry]).length : Nat) : Int) := by
      rw [List.length_append]
      simp only [List.length_cons, List.length_nil]
      push_cast
      omega
    unfold process
    rw [hm]
    dsimp only
    rw [if_pos hcond]

/-- Witness for C8: configuration `cfgW2` (batch 2), one below-threshold
call on an empty backlog, and a threshold-reaching call on a one-entry
backlog. -/
theorem process_batches_at_threshold_witness :
    (stEmpty.metrics = [] ∧
     (∀ x ∈ ["a b c"], (encodeMetric x).isSome = true) ∧
     ((["a b c"].length : Int) < cfgW2.batch_size ∧
     encodeMetric "d e f" =
       some ("\x7b\"output\": \"e\", \"issued\": \"f\", \"name\": \"d\"\x7d\n") ∧
     cfgW2.batch_size ≤ (stOne.metrics.length : Int) + 1)) ∧
    (((processAll cfgW2 ["a b c"] stEmpty).1.metrics.length = ["a b c"].length ∧
      (processAll cfgW2 ["a b c"] stEmpty).1.sentLog = stEmpty.sentLog ∧
      (processAll cfgW2 ["a b c"] stEmpty).1.connectCalls = stEmpty.connectCalls ∧
      (processAll cfgW2 ["a b c"] stEmpty).1.sends = stEmpty.sends ∧
      (processAll cfgW2 ["a b c"] stEmpty).2 = none) ∧
     process cfgW2 "d e f" stOne =
       ((send cfgW2 { stOne with
           metrics := stOne.metrics ++
             ["\x7b\"output\": \"e\", \"issued\": \"f\", \"name\": \"d\"\x7d\n"] }).1,
        if (send cfgW2 { stOne with
            metrics := stOne.metrics ++
              ["\x7b\"output\": \"e\", \"issued\": \"f\", \"name\": \"d\"\x7d\n"] }).2 then
          some PyErr.sendError
        else none)) :=
  ⟨⟨by decide, by decide, by decide, by decide, by decide⟩,
    process_batches_at_threshold cfgW2 ["a b c"] stEmpty "d e f" stOne
      ("\x7b\"output\": \"e\", \"issued\": \"f\", \"name\": \"d\"\x7d\n")
      (by decide) (by decide) (by decide) (by decide) (by decide)⟩

/-- C10: `process` applied to a metric whose string form has fewer than
three whitespace-separated tokens raises an uncaught `IndexError` and
appends nothing — the state is returned unchanged and no send happens; and
the encoding step unconditionally reads the first token as the name, the
second as the output value, and the third as the issued timestamp of the
serialized record. -/
theorem process_short_metric_index_error (cfg : Config) (m : String)
    (s : SensuState) (m' t0 t1 t2 : String) (rest : List String)
    (hshort : (pySplit m).length < 3)
    (htok : pySplit m' = t0 :: t1 :: t2 :: rest) :
    process cfg m s = (s, some PyErr.indexError) ∧
    encodeMetric m' =
      some ("\x7b\"output\": \"" ++ t1 ++ "\", \"issued\": \"" ++ t2 ++
        "\", \"name\": \"" ++ t0 ++ "\"\x7d\n") := by
  constructor
  · have he : encodeMetric m = none := by
      unfold encodeMetric
      cases h : pySplit m with
      | nil => rfl
      | cons a t =>
        cases t with
        | nil => rfl
        | cons b u =>
          cases u with
          | nil => rfl
          | cons c v =>
            rw [h] at hshort
            simp only [List.length_cons] at hshort
            omega
    unfold process
    rw [he]
  · unfold encodeMetric
    rw [htok]

/-- Witness for C10 at the two-token metric "a b" and the three-token
metric "a b c". -/
theorem process_short_metric_index_error_witness :
    ((pySplit "a b").length < 3 ∧ pySplit "a b c" = "a" :: "b" :: "c" :: []) ∧
    (process cfgW "a b" stEmpty = (stEmpty, some PyErr.indexError) ∧
     encodeMetric "a b c" =
       some ("\x7b\"output\": \"" ++ "b" ++ "\", \"issued\": \"" ++ "c" ++
         "\", \"name\": \"" ++ "a" ++ "\"\x7d\n")) :=
  ⟨⟨by decide, by decide⟩,
    process_short_metric_index_error cfgW "a b" stEmpty "a b c" "a" "b" "c" []
      (by decide) (by decide)⟩

end Sensu
